import Mathlib

/-!
Shallow embedding of the substack-idempotency simulation (Go) and proofs of
its specification claims.

Conventions of the embedding:
- Go `int` fields become `Int`, database auto-increment ids and counters
  become `Nat`.
- Wall-clock readings (`time.Now()`) become explicit `Nat` parameters in
  milliseconds, one per distinct `time.Now()` call site that matters.
- Database tables become Lean lists in insertion order; a SQL `QueryRow`
  lookup returns the first matching row (`List.find?`).
- Randomness (`rng.Intn 100`) becomes an explicit `chance : Nat` parameter.
- The structs of `pkg/models` are not among the provided sources; their
  fields are reconstructed exactly from their uses in the service code.
-/

namespace IdemSim

/-- Row of the `internal_orders` table (models.Order). -/
structure Order where
  id : String
  amount : Int
  adminFee : Int
  type : String
  operator : String
  destinationPhone : String
  total : Int
  status : String
  createdAt : Nat
  deriving Repr, DecidableEq

/-- Row of the `internal_payments` table (models.PaymentRecord); the table
has a UNIQUE KEY on order_id. -/
structure PaymentRecord where
  orderID : String
  paidAmount : Int
  paidAt : Nat
  deriving Repr, DecidableEq

/-- Row of the `fulfillment_attempts` table. -/
structure FulfillmentAttempt where
  orderID : String
  attemptNumber : Nat
  payload : String
  deriving Repr, DecidableEq

/-- Row of the `ext_orders` table (models.ExtOrder); `id` is the
auto-increment primary key. -/
structure ExtOrder where
  id : Nat
  orderID : String
  destinationPhone : String
  amount : Int
  status : String
  error : String
  processedAt : Nat
  deriving Repr, DecidableEq

/-- Request body of POST trigger-payment-paid (models.PaymentRequest). -/
structure PaymentRequest where
  orderID : String
  paidAmount : Int
  correlationID : String
  deriving Repr, DecidableEq

/-- Response body of POST trigger-payment-paid (models.PaymentResponse). -/
structure PaymentResponse where
  status : String
  deriving Repr, DecidableEq

/-- Request body of POST process-order (models.ExternalFulfillmentRequest). -/
structure ExternalFulfillmentRequest where
  orderID : String
  destinationPhone : String
  amount : Int
  correlationID : String
  deriving Repr, DecidableEq

/-- Payload of the `data` field of a successful process-order response
(models.SuccessData). `processedAt` stands for the formatted timestamp
string; the format is injective on the clock reading, so we keep the
reading itself. -/
structure SuccessData where
  orderID : String
  vendorOrderID : Nat
  processedAt : Nat
  deriving Repr, DecidableEq

/-- Response body of POST process-order (models.ExternalFulfillmentResponse);
`data` is nil unless the status is success. -/
structure ExternalFulfillmentResponse where
  status : String
  error : String
  data : Option SuccessData
  deriving Repr, DecidableEq

/-- State of the External Fulfillment Service database: the `ext_orders`
rows in insertion order plus the next auto-increment id. -/
structure ExtDB where
  rows : List ExtOrder
  nextId : Nat
  deriving Repr, DecidableEq

/-- Lookup `SELECT ... FROM ext_orders WHERE order_id = ?` (first matching
row in insertion order). -/
def findExtOrder (rows : List ExtOrder) (oid : String) : Option ExtOrder :=
  rows.find? (fun r => decide (r.orderID = oid))

/-- Embedding of `processOrder` in the External Fulfillment Service.
Parameters: `extIdem` is the EXTERNAL_IDEMPOTENCY_CHECK toggle, `chance`
the draw `rng.Intn(100)`, `nowStore` the `time.Now()` stored with the
inserted row, `nowResp` the `time.Now()` formatted into the fresh success
response (a separate, later clock reading in the code). Returns the
response and the updated database. -/
def processOrder (extIdem : Bool) (db : ExtDB) (req : ExternalFulfillmentRequest)
    (chance : Nat) (nowStore nowResp : Nat) : ExternalFulfillmentResponse × ExtDB :=
  match (if extIdem then findExtOrder db.rows req.orderID else none) with
  | some existing =>
      let responseData : Option SuccessData :=
        if existing.status = "success" then
          some { orderID := existing.orderID, vendorOrderID := existing.id,
                 processedAt := existing.processedAt }
        else none
      ({ status := existing.status, error := existing.error, data := responseData }, db)
  | none =>
      let status := if chance < 10 then "error" else "success"
      let errorMsg := if chance < 10 then "Random error occurred" else ""
      let newRow : ExtOrder :=
        { id := db.nextId, orderID := req.orderID,
          destinationPhone := req.destinationPhone, amount := req.amount,
          status := status, error := errorMsg, processedAt := nowStore }
      let db2 : ExtDB := { rows := db.rows ++ [newRow], nextId := db.nextId + 1 }
      let responseData : Option SuccessData :=
        if status = "success" then
          some { orderID := req.orderID, vendorOrderID := db.nextId,
                 processedAt := nowResp }
        else none
      ({ status := status, error := errorMsg, data := responseData }, db2)

/-- Embedding of `utils.DeterminePublishCount`: weighted draw of the number
of duplicate publishes from `chance := r.Intn(100)`. -/
def DeterminePublishCount (chance : Nat) : Nat :=
  if chance < 70 then 1 else if chance < 90 then 2 else 3

/-- Number of `internal_payments` rows stored for an order identifier. -/
def countPaymentsFor (payments : List PaymentRecord) (oid : String) : Nat :=
  (payments.filter (fun p => decide (p.orderID = oid))).length

/-- Embedding of the statement
`INSERT INTO internal_payments ... ON DUPLICATE KEY UPDATE order_id = order_id`
against the UNIQUE KEY on order_id: insert when no row with this order_id
exists, otherwise a no-op. -/
def upsertPayment (payments : List PaymentRecord) (oid : String) (amt : Int)
    (paidAt : Nat) : List PaymentRecord :=
  if payments.any (fun p => decide (p.orderID = oid)) then payments
  else payments ++ [{ orderID := oid, paidAmount := amt, paidAt := paidAt }]

/-- Embedding of the Payment Service handler `triggerPaymentPaid`, after the
body has been decoded. `publishCount` is the multiplicity drawn by
`DeterminePublishCount`; `publishErrs i` says whether the i-th
`nats.Publish` fails (failures are only logged); `storeErr` says whether
the payment insert fails (also only logged). Returns the HTTP response,
the updated `internal_payments` table, and the number of publish attempts
actually performed. -/
def triggerPaymentPaid (payments : List PaymentRecord) (req : PaymentRequest)
    (publishCount : Nat) (publishErrs : Nat → Bool) (storeErr : Bool)
    (paidAt : Nat) : PaymentResponse × List PaymentRecord × Nat :=
  let publishAttempts := ((List.range publishCount).map publishErrs).length
  let payments2 :=
    if storeErr then payments
    else upsertPayment payments req.orderID req.paidAmount paidAt
  ({ status := "success" }, payments2, publishAttempts)

/-- Embedding of the HTTP layer of `triggerPaymentPaid`: non-POST methods
are rejected with 405, an undecodable body with 400; otherwise the handler
body runs. The error side carries the HTTP status code and message. -/
def triggerPaymentPaidHTTP (method : String) (body : Option PaymentRequest)
    (payments : List PaymentRecord) (publishCount : Nat)
    (publishErrs : Nat → Bool) (storeErr : Bool) (paidAt : Nat) :
    Except (Nat × String) (PaymentResponse × List PaymentRecord × Nat) :=
  if method ≠ "POST" then .error (405, "Method not allowed")
  else
    match body with
    | none => .error (400, "Invalid request body")
    | some req =>
        .ok (triggerPaymentPaid payments req publishCount publishErrs storeErr paidAt)

/-- Inputs of one trigger-payment request in a sequence of requests for
claim reasoning: the decoded request, the drawn publish multiplicity,
whether each publish fails, whether the store fails, and the `paid_at`
clock reading. -/
structure TriggerInput where
  req : PaymentRequest
  publishCount : Nat
  publishErrs : Nat → Bool
  storeErr : Bool
  paidAt : Nat

/-- Sequential processing of a list of trigger-payment requests, threading
the `internal_payments` table. -/
def runTriggers (payments : List PaymentRecord) : List TriggerInput → List PaymentRecord
  | [] => payments
  | t :: ts =>
      runTriggers
        (triggerPaymentPaid payments t.req t.publishCount t.publishErrs t.storeErr t.paidAt).2.1
        ts

/-- State of the Order Service database: the `internal_orders` rows and the
`fulfillment_attempts` rows, each in insertion order. -/
structure OrderDB where
  orders : List Order
  attempts : List FulfillmentAttempt
  deriving Repr, DecidableEq

/-- Embedding of `UPDATE internal_orders SET status = ? WHERE id = ?`. -/
def setStatus (orders : List Order) (oid newStatus : String) : List Order :=
  orders.map (fun o => if o.id = oid then { o with status := newStatus } else o)

/-- Embedding of `SELECT COUNT(*) FROM fulfillment_attempts WHERE order_id = ?`. -/
def countAttempts (attempts : List FulfillmentAttempt) (oid : String) : Nat :=
  (attempts.filter (fun a => decide (a.orderID = oid))).length

/-- Payload string built by `fmt.Sprintf` in `handlePaymentPaid` (amount 0
and empty phone are hardcoded there). -/
def handlerPayload (oid : String) : String :=
  "\x7b\"order_id\":\"" ++ oid ++ "\",\"amount\":0,\"destination_phone\":\"\"\x7d"

/-- Attempt row appended by `handlePaymentPaid` on every delivery; the code
passes the literal 1 as attempt_number. -/
def handlerRow (oid : String) : FulfillmentAttempt :=
  { orderID := oid, attemptNumber := 1, payload := handlerPayload oid }

/-- JSON marshalling of the outbound fulfillment request built in
`processFulfillment` (field names as in the HTTP interface table). -/
def marshalFulfillmentReq (r : ExternalFulfillmentRequest) : String :=
  "\x7b\"order_id\":\"" ++ r.orderID ++ "\",\"destination_phone_no\":\"" ++
    r.destinationPhone ++ "\",\"amount\":" ++ toString r.amount ++
    ",\"correlation_id\":\"" ++ r.correlationID ++ "\"\x7d"

/-- Lookup `SELECT id, amount, destination_phone FROM internal_orders WHERE id = ?`. -/
def findOrder (orders : List Order) (oid : String) : Option Order :=
  orders.find? (fun o => decide (o.id = oid))

/-- Embedding of `processFulfillment` (the dispatch path, run here to
completion as the detached goroutine would): look the order up (abort when
missing), recompute attempt_number as current row count + 1, append a
second attempt row, call the external service, and on HTTP 200 set the
order status to fulfilment. `extOk` says whether that call returned 200.
The returned Bool says whether the outbound call was actually made. -/
def processFulfillment (db : OrderDB) (oid cid : String) (extOk : Bool) :
    OrderDB × Bool :=
  match findOrder db.orders oid with
  | none => (db, false)
  | some o =>
      let fulfillmentReq : ExternalFulfillmentRequest :=
        { orderID := o.id, destinationPhone := o.destinationPhone,
          amount := o.amount, correlationID := cid }
      let attemptNumber := countAttempts db.attempts oid + 1
      let row : FulfillmentAttempt :=
        { orderID := oid, attemptNumber := attemptNumber,
          payload := marshalFulfillmentReq fulfillmentReq }
      let db1 : OrderDB := { db with attempts := db.attempts ++ [row] }
      if extOk then
        ({ db1 with orders := setStatus db1.orders oid "fulfilment" }, true)
      else (db1, true)

/-- Embedding of the message handler `handlePaymentPaid` for one delivery
of a payment.paid event, with its dispatch (when taken) run to completion:
set the order to paid, append one attempt row with attempt_number 1, then
gate the dispatch on the attempt count when the IDEMPOTENCY_CHECK toggle
`idem` is on. The returned Bool says whether an outbound fulfillment call
was dispatched. -/
def handleDelivery (idem : Bool) (extOk : Bool) (db : OrderDB)
    (oid cid : String) : OrderDB × Bool :=
  let orders1 := setStatus db.orders oid "paid"
  let attempts1 := db.attempts ++ [handlerRow oid]
  let db1 : OrderDB := { orders := orders1, attempts := attempts1 }
  if idem then
    if countAttempts attempts1 oid > 1 then (db1, false)
    else processFulfillment db1 oid cid extOk
  else processFulfillment db1 oid cid extOk

/-- Sequential consumption of a list of duplicate deliveries for one order;
`extOks` gives the external call outcome each dispatch would see. Returns
the final state and the per-delivery dispatch flags in delivery order. -/
def runDeliveries (idem : Bool) (oid cid : String) (db : OrderDB) :
    List Bool → OrderDB × List Bool
  | [] => (db, [])
  | extOk :: rest =>
      let this := handleDelivery idem extOk db oid cid
      let next := runDeliveries idem oid cid this.1 rest
      (next.1, this.2 :: next.2)

/-- Check of the audit-numbering property over an attempt log in insertion
order: every row's stored attempt_number equals the number of rows for the
same order already present when it was inserted, plus one. -/
def attemptNumbersOk : List FulfillmentAttempt → List FulfillmentAttempt → Bool
  | _, [] => true
  | seen, a :: rest =>
      (a.attemptNumber == countAttempts seen a.orderID + 1) &&
        attemptNumbersOk (seen ++ [a]) rest

/-- Audit-numbering property for a whole attempt log. -/
def attemptNumbersConsistent (attempts : List FulfillmentAttempt) : Bool :=
  attemptNumbersOk [] attempts

/-- Fixed operator list of `utils.GenerateRandomOrder`. -/
def operatorsList : List String := ["indosat", "xl", "three"]

/-- Fixed amount list of `utils.GenerateRandomOrder`. -/
def amountsList : List Int :=
  [1000, 2000, 3000, 4000, 5000, 6000, 7000, 8000, 9000]

/-- Go `fmt.Sprintf("%02d", v)` for the phone suffix values 1..99. -/
def twoDigit (v : Nat) : String :=
  (if v < 10 then "0" else "") ++ toString v

/-- Embedding of `utils.GenerateRandomOrder`. The three `time.Now().UnixNano()`
reads are the parameters `n1` (operator index), `n2` (amount index) and
`n3` (phone suffix); `uuid` is the generated UUIDv7 and `now` the creation
timestamp. The Go switch statements have no default branch, hence the 0
and empty-string fallbacks, which are unreachable for indices below 3. -/
def GenerateRandomOrder (n1 n2 n3 : Nat) (uuid : String) (now : Nat) : Order :=
  let operator := operatorsList.getD (n1 % 3) ""
  let adminFee : Int :=
    if operator = "indosat" then 100
    else if operator = "xl" then 200
    else if operator = "three" then 300
    else 0
  let amount := amountsList.getD (n2 % 9) 0
  let phonePref :=
    if operator = "indosat" then "0815-000-00"
    else if operator = "xl" then "0817-000-00"
    else if operator = "three" then "0896-000-00"
    else ""
  let destinationPhone := phonePref ++ twoDigit (n3 % 99 + 1)
  { id := uuid, amount := amount, adminFee := adminFee,
    type := "phone_credit", operator := operator,
    destinationPhone := destinationPhone, total := amount + adminFee,
    status := "pending", createdAt := now }

/-- Classification of one `triggerPayment` call in the Harness: no error,
a timeout error, or any other error (transport failure or non-200). -/
inductive TriggerResult where
  | ok
  | timeout
  | other
  deriving Repr, DecidableEq

/-- One line sent to the results channel by `runSimulationIteration`. -/
inductive SimEvent where
  | createFailed
  | success
  | timeoutMsg
  | failedPayment
  | failedFinal
  deriving Repr, DecidableEq

/-- Embedding of the retry loop `for retry := 0; retry < 3; retry++` in
`runSimulationIteration`. `f r` is the classification of the attempt made
at loop index `r`. Returns the number of trigger attempts made, the events
emitted by the loop, and the final value of the `success` flag. `fuel`
bounds the recursion and is 3 at the entry point. -/
def harnessLoop (f : Nat → TriggerResult) : Nat → Nat → Nat × List SimEvent × Bool
  | _, 0 => (0, [], false)
  | r, fuel + 1 =>
      if r < 3 then
        match f r with
        | .ok => (1, [SimEvent.success], true)
        | .timeout =>
            let rest := harnessLoop f (r + 1) fuel
            (1 + rest.1,
             (if r = 2 then [SimEvent.timeoutMsg] else []) ++ rest.2.1,
             rest.2.2)
        | .other => (1, [SimEvent.failedPayment], false)
      else (0, [], false)

/-- Embedding of `runSimulationIteration`: when order creation fails one
createFailed line is emitted and no trigger attempt is made; otherwise the
retry loop runs and, when its success flag is still false afterwards, one
more failedFinal line is emitted. Returns the number of trigger attempts
and the emitted events in order. -/
def runSimulationIteration (orderOk : Bool) (f : Nat → TriggerResult) :
    Nat × List SimEvent :=
  if orderOk then
    let res := harnessLoop f 0 3
    (res.1, res.2.1 ++ (if res.2.2 then [] else [SimEvent.failedFinal]))
  else (0, [SimEvent.createFailed])

/-- Independent characterisation (not taken from the loop) of the traces
on which the payment phase ends in success: some attempt among the first
three returns ok and all attempts before it time out. -/
def succeedsWithin3 (f : Nat → TriggerResult) : Bool :=
  match f 0 with
  | .ok => true
  | .other => false
  | .timeout =>
      match f 1 with
      | .ok => true
      | .other => false
      | .timeout =>
          match f 2 with
          | .ok => true
          | _ => false

/-- Concrete order used to instantiate hypotheses of the claim theorems. -/
def sampleOrder : Order :=
  { id := "A", amount := 1000, adminFee := 100, type := "phone_credit",
    operator := "indosat", destinationPhone := "0815-000-0001",
    total := 1100, status := "pending", createdAt := 0 }

/-- Order Service database holding one freshly created order. -/
def sampleOrderDB : OrderDB := { orders := [sampleOrder], attempts := [] }

/-- Concrete stored outcome row of the External Fulfillment Service. -/
def sampleExtRow : ExtOrder :=
  { id := 1, orderID := "A", destinationPhone := "0815-000-0001",
    amount := 1100, status := "success", error := "", processedAt := 1000 }

/-- Concrete process-order request for order A. -/
def sampleExtReq : ExternalFulfillmentRequest :=
  { orderID := "A", destinationPhone := "0815-000-0001", amount := 1100,
    correlationID := "CID123" }

/-- Concrete trigger-payment input (two publishes, none failing). -/
def sampleTrigger1 : TriggerInput :=
  { req := { orderID := "A", paidAmount := 1100, correlationID := "CID123" },
    publishCount := 2, publishErrs := fun _ => false, storeErr := false,
    paidAt := 10 }

/-- Concrete duplicate trigger-payment input (three publishes, all failing). -/
def sampleTrigger2 : TriggerInput :=
  { req := { orderID := "A", paidAmount := 1100, correlationID := "CID123" },
    publishCount := 3, publishErrs := fun _ => true, storeErr := false,
    paidAt := 20 }

/-! ### Helper lemmas -/

/-- Appending one attempt row changes the per-order count by one when the
row is for that order and not at all otherwise. -/
theorem countAttempts_append_single (l : List FulfillmentAttempt)
    (a : FulfillmentAttempt) (oid : String) :
    countAttempts (l ++ [a]) oid =
      countAttempts l oid + (if a.orderID = oid then 1 else 0) := by
  unfold countAttempts
  rw [List.filter_append]
  by_cases h : a.orderID = oid <;> simp [h]

/-- Appending one payment row changes the per-order count by one when the
row is for that order and not at all otherwise. -/
theorem countPaymentsFor_append_single (l : List PaymentRecord)
    (p : PaymentRecord) (oid : String) :
    countPaymentsFor (l ++ [p]) oid =
      countPaymentsFor l oid + (if p.orderID = oid then 1 else 0) := by
  unfold countPaymentsFor
  rw [List.filter_append]
  by_cases h : p.orderID = oid <;> simp [h]

/-! ### Claim C7 -/

/-- Claim C7: every order produced by CreateOrder has total = amount +
admin_fee, an admin_fee given by the fixed operator mapping (indosat 100,
xl 200, three 300), an operator from the fixed set, an amount from the
fixed set 1000..9000, and initial status pending. -/
theorem createOrder_invariants (n1 n2 n3 : Nat) (uuid : String) (now : Nat) :
    (GenerateRandomOrder n1 n2 n3 uuid now).total =
        (GenerateRandomOrder n1 n2 n3 uuid now).amount +
          (GenerateRandomOrder n1 n2 n3 uuid now).adminFee ∧
    (((GenerateRandomOrder n1 n2 n3 uuid now).operator = "indosat" ∧
        (GenerateRandomOrder n1 n2 n3 uuid now).adminFee = 100) ∨
      ((GenerateRandomOrder n1 n2 n3 uuid now).operator = "xl" ∧
        (GenerateRandomOrder n1 n2 n3 uuid now).adminFee = 200) ∨
      ((GenerateRandomOrder n1 n2 n3 uuid now).operator = "three" ∧
        (GenerateRandomOrder n1 n2 n3 uuid now).adminFee = 300)) ∧
    (GenerateRandomOrder n1 n2 n3 uuid now).amount ∈ amountsList ∧
    (GenerateRandomOrder n1 n2 n3 uuid now).status = "pending" := by
  refine ⟨rfl, ?_, ?_, rfl⟩
  · have h1 : n1 % 3 = 0 ∨ n1 % 3 = 1 ∨ n1 % 3 = 2 := by omega
    rcases h1 with h | h | h <;>
      simp [GenerateRandomOrder, operatorsList, h]
  · have h2 : n2 % 9 = 0 ∨ n2 % 9 = 1 ∨ n2 % 9 = 2 ∨ n2 % 9 = 3 ∨
        n2 % 9 = 4 ∨ n2 % 9 = 5 ∨ n2 % 9 = 6 ∨ n2 % 9 = 7 ∨ n2 % 9 = 8 := by
      omega
    rcases h2 with h | h | h | h | h | h | h | h | h <;>
      simp [GenerateRandomOrder, amountsList, h]

/-! ### Claim C8 -/

/-- Claim C8: a well-formed POST trigger-payment request is always answered
with status success, regardless of publish failures and of a storage
failure, and the number of publish attempts is exactly the drawn
multiplicity (failed publishes are never retried). -/
theorem triggerPayment_always_success (payments : List PaymentRecord)
    (req : PaymentRequest) (publishCount : Nat) (publishErrs : Nat → Bool)
    (storeErr : Bool) (paidAt : Nat) :
    (triggerPaymentPaidHTTP "POST" (some req) payments publishCount
        publishErrs storeErr paidAt).map (fun x => (x.1, x.2.2)) =
      .ok ({ status := "success" }, publishCount) := by
  cases storeErr <;>
    simp [triggerPaymentPaidHTTP, triggerPaymentPaid, Except.map]

/-! ### Claim C10 -/

/-- Claim C10: when no outcome row is stored for the requested order
identifier, the External Fulfillment Service behaves identically with the
server-side idempotency toggle ON and OFF: same response and same inserted
row, given the same random draw and clock readings. -/
theorem processOrder_toggle_irrelevant_when_fresh (db : ExtDB)
    (req : ExternalFulfillmentRequest) (chance nowStore nowResp : Nat)
    (hnone : findExtOrder db.rows req.orderID = none) :
    processOrder true db req chance nowStore nowResp =
      processOrder false db req chance nowStore nowResp := by
  simp [processOrder, hnone]

/-- Witness for C10 at a concrete fresh database. -/
theorem processOrder_toggle_irrelevant_when_fresh_witness :
    processOrder true { rows := [], nextId := 1 } sampleExtReq 50 1 2 =
      processOrder false { rows := [], nextId := 1 } sampleExtReq 50 1 2 :=
  processOrder_toggle_irrelevant_when_fresh _ _ _ _ _ rfl

/-! ### Claim C2 -/

/-- Counterexample to claim C2: with the server-side toggle ON, the second
process-order call returns the stored outcome, whose processed_at is the
clock reading stored with the row, while the first call's response was
formatted from a different, later clock reading; the two payloads differ. -/
theorem processOrder_repeat_differs_from_first :
    (processOrder true
        (processOrder true { rows := [], nextId := 1 } sampleExtReq 50 1000 1001).2
        sampleExtReq 60 2000 2001).1 ≠
      (processOrder true { rows := [], nextId := 1 } sampleExtReq 50 1000 1001).1 := by
  decide

/-- Claim C2 (amended): with the server-side toggle ON and a stored outcome
for the order identifier, every process-order call returns the stored
outcome, independently of the random draw and of the clock, and leaves the
database unchanged — so all calls after the first return an identical
payload, though not necessarily the first call's own payload. -/
theorem processOrder_cached_outcome (db : ExtDB) (row : ExtOrder)
    (req : ExternalFulfillmentRequest) (chance nowStore nowResp : Nat)
    (hfind : findExtOrder db.rows req.orderID = some row) :
    processOrder true db req chance nowStore nowResp =
      ({ status := row.status, error := row.error,
         data := if row.status = "success" then
             some { orderID := row.orderID, vendorOrderID := row.id,
                    processedAt := row.processedAt }
           else none }, db) := by
  simp [processOrder, hfind]

/-- Witness for the amended C2 at a concrete stored success row: two
repeat calls with unrelated draws and clocks both return the stored
payload. -/
theorem processOrder_cached_outcome_witness :
    processOrder true { rows := [sampleExtRow], nextId := 2 } sampleExtReq 42 7 8 =
      ({ status := sampleExtRow.status, error := sampleExtRow.error,
         data := if sampleExtRow.status = "success" then
             some { orderID := sampleExtRow.orderID,
                    vendorOrderID := sampleExtRow.id,
                    processedAt := sampleExtRow.processedAt }
           else none }, { rows := [sampleExtRow], nextId := 2 }) :=
  processOrder_cached_outcome _ _ _ _ _ _ (by decide)

/-! ### Claim C4 -/

/-- Counterexample to claim C4: on a trace where every trigger attempt
times out, the Harness makes 3 attempts, not 4. -/
theorem harness_not_four_attempts :
    (runSimulationIteration true (fun _ => TriggerResult.timeout)).1 ≠ 4 := by
  decide

/-- Claim C4 (amended): on a trace where every trigger attempt times out,
the Harness makes exactly 3 trigger attempts (the loop runs retry = 0, 1, 2)
and classifies the iteration as TIMEOUT, additionally emitting the
redundant final FAILED line. -/
theorem harness_three_attempts_on_timeout (f : Nat → TriggerResult)
    (hf : ∀ n, f n = TriggerResult.timeout) :
    (runSimulationIteration true f).1 = 3 ∧
      (runSimulationIteration true f).2 =
        [SimEvent.timeoutMsg, SimEvent.failedFinal] := by
  have h0 := hf 0
  have h1 := hf 1
  have h2 := hf 2
  refine ⟨?_, ?_⟩ <;>
    simp [runSimulationIteration, harnessLoop, h0, h1, h2]

/-- Witness for the amended C4 on the all-timeout trace. -/
theorem harness_three_attempts_on_timeout_witness :
    (runSimulationIteration true (fun _ => TriggerResult.timeout)).1 = 3 ∧
      (runSimulationIteration true (fun _ => TriggerResult.timeout)).2 =
        [SimEvent.timeoutMsg, SimEvent.failedFinal] :=
  harness_three_attempts_on_timeout (fun _ => TriggerResult.timeout)
    (fun _ => rfl)

/-! ### Claim C5 -/

/-- Counterexample to claim C5: an iteration whose single payment attempt
fails with a non-timeout error emits two result lines, not one. -/
theorem harness_iteration_two_results :
    (runSimulationIteration true (fun _ => TriggerResult.other)).2.length ≠ 1 := by
  decide

/-- Claim C5 (amended): an iteration emits exactly one result line when
order creation fails or when some attempt of the payment phase succeeds,
and exactly two result lines (the classifying line followed by a redundant
final FAILED line) when the payment phase ends in failure. -/
theorem harness_iteration_result_count (orderOk : Bool)
    (f : Nat → TriggerResult) :
    (runSimulationIteration orderOk f).2.length =
      if orderOk then (if succeedsWithin3 f then 1 else 2) else 1 := by
  cases orderOk
  · simp [runSimulationIteration]
  · rcases h0 : f 0 <;> rcases h1 : f 1 <;> rcases h2 : f 2 <;>
      simp [runSimulationIteration, harnessLoop, succeedsWithin3, h0, h1, h2]

/-! ### Claim C3 -/

/-- Upserting a payment for an order that already has a stored record is a
no-op (the ON DUPLICATE KEY UPDATE branch). -/
theorem upsertPayment_noop (ps : List PaymentRecord) (oid : String)
    (amt : Int) (paidAt : Nat) (h : 1 ≤ countPaymentsFor ps oid) :
    upsertPayment ps oid amt paidAt = ps := by
  unfold upsertPayment
  rw [if_pos]
  have hne : ps.filter (fun p => decide (p.orderID = oid)) ≠ [] := by
    intro hnil
    unfold countPaymentsFor at h
    rw [hnil] at h
    simp at h
  obtain ⟨p, hp⟩ := List.exists_mem_of_ne_nil _ hne
  obtain ⟨hmem, hdec⟩ := List.mem_filter.mp hp
  exact List.any_eq_true.mpr ⟨p, hmem, hdec⟩

/-- Upserting a payment for an order with no stored record inserts exactly
one record for it. -/
theorem upsertPayment_fresh (ps : List PaymentRecord) (oid : String)
    (amt : Int) (paidAt : Nat) (h : countPaymentsFor ps oid = 0) :
    countPaymentsFor (upsertPayment ps oid amt paidAt) oid = 1 := by
  unfold upsertPayment
  rw [if_neg]
  · rw [countPaymentsFor_append_single, h]
    simp
  · intro hany
    obtain ⟨p, hmem, hdec⟩ := List.any_eq_true.mp hany
    have : p ∈ ps.filter (fun p => decide (p.orderID = oid)) :=
      List.mem_filter.mpr ⟨hmem, hdec⟩
    unfold countPaymentsFor at h
    rw [List.length_eq_zero] at h
    rw [h] at this
    simp at this

/-- Once exactly one payment record is stored for an order, any further
sequence of trigger-payment requests keeps it at exactly one. -/
theorem runTriggers_keeps_one (oid : String) :
    ∀ (ts : List TriggerInput) (ps : List PaymentRecord),
      countPaymentsFor ps oid = 1 →
      countPaymentsFor (runTriggers ps ts) oid = 1 := by
  intro ts
  induction ts with
  | nil => intro ps h; exact h
  | cons t ts ih =>
      intro ps h
      unfold runTriggers triggerPaymentPaid
      simp only
      cases hse : t.storeErr
      · simp only [Bool.false_eq_true, if_false]
        by_cases ho : t.req.orderID = oid
        · rw [ho, upsertPayment_noop _ _ _ _ (by omega)]
          exact ih ps h
        · unfold upsertPayment
          split
          · exact ih ps h
          · apply ih
            rw [countPaymentsFor_append_single]
            simp [ho, h]
      · simp only [if_true]
        exact ih ps h

/-- Claim C3: starting from no stored payment record for the order, any
nonempty sequence of trigger-payment requests for it — each with a publish
multiplicity in {1,2,3} and a working store — leaves exactly one persisted
PaymentRecord for the order; and a conflicting insert is a no-op. -/
theorem payment_record_unique (oid : String) (payments0 : List PaymentRecord)
    (ts : List TriggerInput) (h0 : countPaymentsFor payments0 oid = 0)
    (hne : ts ≠ [])
    (hts : ∀ t ∈ ts, t.req.orderID = oid ∧ t.storeErr = false ∧
      (t.publishCount = 1 ∨ t.publishCount = 2 ∨ t.publishCount = 3)) :
    countPaymentsFor (runTriggers payments0 ts) oid = 1 ∧
      ∀ (ps : List PaymentRecord) (amt : Int) (paidAt : Nat),
        1 ≤ countPaymentsFor ps oid → upsertPayment ps oid amt paidAt = ps := by
  refine ⟨?_, fun ps amt paidAt h => upsertPayment_noop ps oid amt paidAt h⟩
  cases ts with
  | nil => exact absurd rfl hne
  | cons t ts =>
      obtain ⟨ht1, ht2, _⟩ := hts t (List.mem_cons_self t ts)
      unfold runTriggers triggerPaymentPaid
      simp only [ht2, Bool.false_eq_true, if_false]
      apply runTriggers_keeps_one
      rw [ht1]
      exact upsertPayment_fresh _ _ _ _ h0

/-- Witness for C3: two duplicate triggers for order A (publish
multiplicities 2 and 3) leave exactly one stored record. -/
theorem payment_record_unique_witness :
    countPaymentsFor (runTriggers [] [sampleTrigger1, sampleTrigger2]) "A" = 1 :=
  (payment_record_unique "A" [] [sampleTrigger1, sampleTrigger2] rfl
    (by simp)
    (by
      intro t ht
      rcases List.mem_cons.mp ht with h | h
      · rw [h]
        exact ⟨rfl, rfl, Or.inr (Or.inl rfl)⟩
      · rcases List.mem_cons.mp h with h2 | h2
        · rw [h2]
          exact ⟨rfl, rfl, Or.inr (Or.inr rfl)⟩
        · simp at h2)).1

/-! ### Claim C9 -/

/-- Relation between an order row before and after an update targeting
order `oid`: every field except status is unchanged, and rows for other
orders are entirely unchanged. -/
def sameOrderFrame (oid : String) (o o2 : Order) : Prop :=
  o2.id = o.id ∧ o2.amount = o.amount ∧ o2.adminFee = o.adminFee ∧
  o2.type = o.type ∧ o2.operator = o.operator ∧
  o2.destinationPhone = o.destinationPhone ∧ o2.total = o.total ∧
  o2.createdAt = o.createdAt ∧ (o.id ≠ oid → o2 = o)

/-- Reflexivity of the frame relation. -/
theorem sameOrderFrame_refl (oid : String) (o : Order) :
    sameOrderFrame oid o o :=
  ⟨rfl, rfl, rfl, rfl, rfl, rfl, rfl, rfl, fun _ => rfl⟩

/-- Transitivity of the frame relation. -/
theorem sameOrderFrame_trans (oid : String) (o o2 o3 : Order)
    (h12 : sameOrderFrame oid o o2) (h23 : sameOrderFrame oid o2 o3) :
    sameOrderFrame oid o o3 := by
  obtain ⟨a1, a2, a3, a4, a5, a6, a7, a8, a9⟩ := h12
  obtain ⟨b1, b2, b3, b4, b5, b6, b7, b8, b9⟩ := h23
  refine ⟨b1.trans a1, b2.trans a2, b3.trans a3, b4.trans a4, b5.trans a5,
    b6.trans a6, b7.trans a7, b8.trans a8, fun hne => ?_⟩
  have h2 := a9 hne
  have h3 := b9 (by rw [a1]; exact hne)
  rw [h3, h2]

/-- Composition of two Forall₂ layers of the frame relation. -/
theorem forall₂_frame_trans (oid : String) :
    ∀ {l1 l2 l3 : List Order},
      List.Forall₂ (sameOrderFrame oid) l1 l2 →
      List.Forall₂ (sameOrderFrame oid) l2 l3 →
      List.Forall₂ (sameOrderFrame oid) l1 l3 := by
  intro l1 l2 l3 h12
  induction h12 generalizing l3 with
  | nil =>
      intro h23
      cases h23
      exact List.Forall₂.nil
  | cons hab hrest ih =>
      intro h23
      cases h23 with
      | cons hbc hrest2 =>
          exact List.Forall₂.cons
            (sameOrderFrame_trans _ _ _ _ hab hbc) (ih hrest2)

/-- A status update relates the order table to its previous contents by the
frame relation. -/
theorem setStatus_frame (orders : List Order) (oid newStatus : String) :
    List.Forall₂ (sameOrderFrame oid) orders (setStatus orders oid newStatus) := by
  induction orders with
  | nil => exact List.Forall₂.nil
  | cons o rest ih =>
      unfold setStatus
      rw [List.map_cons]
      refine List.Forall₂.cons ?_ ih
      by_cases h : o.id = oid
      · rw [if_pos h]
        exact ⟨rfl, rfl, rfl, rfl, rfl, rfl, rfl, rfl, fun hne => absurd h hne⟩
      · rw [if_neg h]
        exact sameOrderFrame_refl oid o

/-- The dispatch path relates the order table to its previous contents by
the frame relation. -/
theorem processFulfillment_frame (db : OrderDB) (oid cid : String)
    (extOk : Bool) :
    List.Forall₂ (sameOrderFrame oid) db.orders
      (processFulfillment db oid cid extOk).1.orders := by
  unfold processFulfillment
  cases hfind : findOrder db.orders oid
  · exact List.forall₂_same.mpr (fun o _ => sameOrderFrame_refl oid o)
  · cases extOk
    · exact List.forall₂_same.mpr (fun o _ => sameOrderFrame_refl oid o)
    · exact setStatus_frame db.orders oid "fulfilment"

/-- Claim C9: consuming one payment delivery (including its dispatch when
taken) only ever changes the status field of the targeted order row; all
other fields of every row are unchanged, rows for other orders are
unchanged, and no row is deleted (the relation forces equal lengths). -/
theorem order_updates_frame (idem extOk : Bool) (db : OrderDB)
    (oid cid : String) :
    List.Forall₂ (sameOrderFrame oid) db.orders
      (handleDelivery idem extOk db oid cid).1.orders := by
  have hbase := setStatus_frame db.orders oid "paid"
  have hdisp := processFulfillment_frame
      { orders := setStatus db.orders oid "paid",
        attempts := db.attempts ++ [handlerRow oid] } oid cid extOk
  have hcomp := forall₂_frame_trans oid hbase hdisp
  unfold handleDelivery
  cases idem <;> simp only [Bool.false_eq_true, ↓reduceIte]
  · exact hcomp
  · by_cases hc : countAttempts (db.attempts ++ [handlerRow oid]) oid > 1
    · rw [if_pos hc]
      exact hbase
    · rw [if_neg hc]
      exact hcomp

/-! ### Claim C1 -/

/-- Unfolding equation for `runDeliveries` on a cons cell. -/
theorem runDeliveries_cons (idem extOk : Bool) (oid cid : String)
    (db : OrderDB) (rest : List Bool) :
    runDeliveries idem oid cid db (extOk :: rest) =
      ((runDeliveries idem oid cid (handleDelivery idem extOk db oid cid).1 rest).1,
       (handleDelivery idem extOk db oid cid).2 ::
         (runDeliveries idem oid cid (handleDelivery idem extOk db oid cid).1 rest).2) :=
  rfl

/-- Updating order statuses never changes whether an order is found. -/
theorem findOrder_setStatus (orders : List Order) (oid s oid2 : String) :
    (findOrder (setStatus orders oid s) oid2).isSome =
      (findOrder orders oid2).isSome := by
  unfold findOrder setStatus
  rw [List.find?_map]
  have hpred : ((fun o => decide (o.id = oid2)) ∘
      (fun o => if o.id = oid then { o with status := s } else o)) =
      (fun o : Order => decide (o.id = oid2)) := by
    funext o
    by_cases h : o.id = oid <;> simp [h]
  rw [hpred]
  cases orders.find? (fun o => decide (o.id = oid2)) <;> rfl

/-- With the client-side toggle ON and at least one attempt row already
stored, a delivery appends its handler row and skips the dispatch. -/
theorem handleDelivery_skip (extOk : Bool) (db : OrderDB) (oid cid : String)
    (h : 1 ≤ countAttempts db.attempts oid) :
    handleDelivery true extOk db oid cid =
      ({ orders := setStatus db.orders oid "paid",
         attempts := db.attempts ++ [handlerRow oid] }, false) := by
  have h2 : countAttempts (db.attempts ++ [handlerRow oid]) oid > 1 := by
    rw [countAttempts_append_single]
    simp only [handlerRow]
    simp
    omega
  unfold handleDelivery
  simp only [↓reduceIte]
  rw [if_pos h2]

/-- When the order row exists, the dispatch path makes the outbound call
and appends one attempt row for the order. -/
theorem processFulfillment_found (db : OrderDB) (oid cid : String)
    (extOk : Bool) (hp : (findOrder db.orders oid).isSome = true) :
    (processFulfillment db oid cid extOk).2 = true ∧
      countAttempts (processFulfillment db oid cid extOk).1.attempts oid =
        countAttempts db.attempts oid + 1 := by
  unfold processFulfillment
  cases hfind : findOrder db.orders oid with
  | none => rw [hfind] at hp; simp at hp
  | some o =>
      simp only [hfind]
      cases extOk <;> simp [countAttempts_append_single]

/-- The dispatch path never changes whether the order is found. -/
theorem processFulfillment_preserves (db : OrderDB) (oid cid : String)
    (extOk : Bool) :
    (findOrder (processFulfillment db oid cid extOk).1.orders oid).isSome =
      (findOrder db.orders oid).isSome := by
  unfold processFulfillment
  cases hfind : findOrder db.orders oid with
  | none => simp only [hfind]
  | some o =>
      simp only [hfind]
      cases extOk
      · simp only [Bool.false_eq_true, ↓reduceIte]
        rw [hfind]
      · simp only [↓reduceIte]
        rw [findOrder_setStatus, hfind]

/-- With the client-side toggle ON, a fresh order (no attempt rows yet)
that exists in the order table is dispatched on its first delivery, after
which at least one attempt row is stored. -/
theorem handleDelivery_first (extOk : Bool) (db : OrderDB) (oid cid : String)
    (h0 : countAttempts db.attempts oid = 0)
    (hp : (findOrder db.orders oid).isSome = true) :
    (handleDelivery true extOk db oid cid).2 = true ∧
      1 ≤ countAttempts (handleDelivery true extOk db oid cid).1.attempts oid := by
  have hc : ¬ countAttempts (db.attempts ++ [handlerRow oid]) oid > 1 := by
    rw [countAttempts_append_single, h0]
    simp only [handlerRow]
    simp
  have hp1 : (findOrder (setStatus db.orders oid "paid") oid).isSome = true := by
    rw [findOrder_setStatus]
    exact hp
  have hfound := processFulfillment_found
    { orders := setStatus db.orders oid "paid",
      attempts := db.attempts ++ [handlerRow oid] } oid cid extOk hp1
  unfold handleDelivery
  simp only [↓reduceIte]
  rw [if_neg hc]
  exact ⟨hfound.1, by rw [hfound.2]; omega⟩

/-- With the toggle OFF, a delivery for an existing order always
dispatches, and the order still exists afterwards. -/
theorem handleDelivery_off (extOk : Bool) (db : OrderDB) (oid cid : String)
    (hp : (findOrder db.orders oid).isSome = true) :
    (handleDelivery false extOk db oid cid).2 = true ∧
      (findOrder (handleDelivery false extOk db oid cid).1.orders oid).isSome
        = true := by
  have hp1 : (findOrder (setStatus db.orders oid "paid") oid).isSome = true := by
    rw [findOrder_setStatus]
    exact hp
  unfold handleDelivery
  simp only [Bool.false_eq_true, ↓reduceIte]
  refine ⟨(processFulfillment_found
    { orders := setStatus db.orders oid "paid",
      attempts := db.attempts ++ [handlerRow oid] } oid cid extOk hp1).1, ?_⟩
  rw [processFulfillment_preserves]
  exact hp1

/-- With the client-side toggle ON and an attempt row already present, no
delivery of a run ever dispatches. -/
theorem runDeliveries_skip_all (oid cid : String) :
    ∀ (extOks : List Bool) (db : OrderDB),
      1 ≤ countAttempts db.attempts oid →
      (runDeliveries true oid cid db extOks).2 =
        List.replicate extOks.length false := by
  intro extOks
  induction extOks with
  | nil => intro db _; rfl
  | cons e rest ih =>
      intro db h
      rw [runDeliveries_cons, handleDelivery_skip e db oid cid h]
      have hcnt : 1 ≤ countAttempts (db.attempts ++ [handlerRow oid]) oid := by
        rw [countAttempts_append_single]
        omega
      simp only [List.length_cons, List.replicate_succ, List.cons.injEq]
      exact ⟨trivial, ih _ hcnt⟩

/-- With the toggle OFF, every delivery of a run for an existing order
dispatches. -/
theorem runDeliveries_all_dispatch (oid cid : String) :
    ∀ (extOks : List Bool) (db : OrderDB),
      (findOrder db.orders oid).isSome = true →
      (runDeliveries false oid cid db extOks).2 =
        List.replicate extOks.length true := by
  intro extOks
  induction extOks with
  | nil => intro db _; rfl
  | cons e rest ih =>
      intro db hp
      obtain ⟨hflag, hpres⟩ := handleDelivery_off e db oid cid hp
      rw [runDeliveries_cons]
      simp only [List.length_cons, List.replicate_succ, List.cons.injEq]
      exact ⟨hflag, ih _ hpres⟩

/-- Claim C1: for an existing order with no prior attempt rows and any
nonempty sequence of sequentially consumed deliveries, with the
client-side toggle ON exactly the first delivery dispatches an outbound
fulfillment call (its post-insert attempt count being 1) and every later
one is suppressed, while with the toggle OFF every delivery dispatches. -/
theorem client_idempotency_dispatch (db : OrderDB) (oid cid : String)
    (extOks : List Bool) (hne : extOks ≠ [])
    (hp : (findOrder db.orders oid).isSome = true)
    (h0 : countAttempts db.attempts oid = 0) :
    (runDeliveries true oid cid db extOks).2 =
        true :: List.replicate (extOks.length - 1) false ∧
      (runDeliveries false oid cid db extOks).2 =
        List.replicate extOks.length true ∧
      countAttempts (db.attempts ++ [handlerRow oid]) oid = 1 := by
  refine ⟨?_, runDeliveries_all_dispatch oid cid extOks db hp, ?_⟩
  · cases extOks with
    | nil => exact absurd rfl hne
    | cons e rest =>
        obtain ⟨hflag, hcnt⟩ := handleDelivery_first e db oid cid h0 hp
        rw [runDeliveries_cons]
        simp only [List.length_cons, Nat.add_sub_cancel, List.cons.injEq]
        exact ⟨hflag, runDeliveries_skip_all oid cid rest _ hcnt⟩
  · rw [countAttempts_append_single, h0]
    simp [handlerRow]

/-- Witness for C1: three duplicate deliveries of one payment event for a
fresh order dispatch once with the toggle ON and three times with it OFF. -/
theorem client_idempotency_dispatch_witness :
    (runDeliveries true "A" "CID123" sampleOrderDB [true, false, true]).2 =
        true :: List.replicate 2 false ∧
      (runDeliveries false "A" "CID123" sampleOrderDB [true, false, true]).2 =
        List.replicate 3 true ∧
      countAttempts (sampleOrderDB.attempts ++ [handlerRow "A"]) "A" = 1 :=
  client_idempotency_dispatch sampleOrderDB "A" "CID123" [true, false, true]
    (by simp) (by decide) (by decide)

/-! ### Claim C6 -/

/-- Attempt rows appended by the dispatch path: none when the order is
missing, otherwise exactly one whose attempt_number is the pre-insert row
count for the order plus one. -/
theorem processFulfillment_attempts (db : OrderDB) (oid cid : String)
    (extOk : Bool) :
    (processFulfillment db oid cid extOk).1.attempts = db.attempts ∨
      ∃ p, (processFulfillment db oid cid extOk).1.attempts =
        db.attempts ++
          [{ orderID := oid, attemptNumber := countAttempts db.attempts oid + 1,
             payload := p }] := by
  unfold processFulfillment
  cases hfind : findOrder db.orders oid with
  | none => exact Or.inl rfl
  | some o =>
      right
      simp only [hfind]
      cases extOk
      · exact ⟨marshalFulfillmentReq
          { orderID := o.id, destinationPhone := o.destinationPhone,
            amount := o.amount, correlationID := cid }, rfl⟩
      · exact ⟨marshalFulfillmentReq
          { orderID := o.id, destinationPhone := o.destinationPhone,
            amount := o.amount, correlationID := cid }, rfl⟩

/-- Counterexample to claim C6: after two sequential deliveries for one
fresh order (toggle ON), the attempt log is a reachable state in which the
third row stores attempt_number 1 although two rows for the order already
existed at its insertion, so not every stored attempt_number equals the
prior row count plus one. -/
theorem attempt_number_audit_counterexample :
    attemptNumbersConsistent
      (runDeliveries true "A" "CID123" sampleOrderDB [true, true]).1.attempts
      = false := by
  decide

/-- Claim C6 (amended): per delivery, the handler appends one row whose
attempt_number is always the literal 1 (equal to the prior row count plus
one only when no rows existed), and when the dispatch path inserts its row
that row's attempt_number equals the row count existing at its insertion
plus one. -/
theorem attempt_number_audit (idem extOk : Bool) (db : OrderDB)
    (oid cid : String) :
    (handleDelivery idem extOk db oid cid).1.attempts =
        db.attempts ++
          [{ orderID := oid, attemptNumber := 1, payload := handlerPayload oid }] ∨
      ∃ p, (handleDelivery idem extOk db oid cid).1.attempts =
        db.attempts ++
          [{ orderID := oid, attemptNumber := 1, payload := handlerPayload oid },
           { orderID := oid,
             attemptNumber :=
               countAttempts (db.attempts ++
                 [{ orderID := oid, attemptNumber := 1,
                    payload := handlerPayload oid }]) oid + 1,
             payload := p }] := by
  have hdisp := processFulfillment_attempts
    { orders := setStatus db.orders oid "paid",
      attempts := db.attempts ++ [handlerRow oid] } oid cid extOk
  unfold handleDelivery
  cases idem <;> simp only [Bool.false_eq_true, ↓reduceIte]
  · rcases hdisp with h | ⟨p, h⟩
    · exact Or.inl h
    · refine Or.inr ⟨p, ?_⟩
      rw [h, List.append_assoc]
      exact rfl
  · by_cases hc : countAttempts (db.attempts ++ [handlerRow oid]) oid > 1
    · rw [if_pos hc]
      exact Or.inl rfl
    · rw [if_neg hc]
      rcases hdisp with h | ⟨p, h⟩
      · exact Or.inl h
      · refine Or.inr ⟨p, ?_⟩
        rw [h, List.append_assoc]
        exact rfl

end IdemSim
